import Mathlib

/-!
Shallow embedding of `src/sentiment_dashboard.py` (a Streamlit sentiment
dashboard).  The dataframe is modelled as a `List Post`; each pandas
operation used by the script is translated into an explicit list
operation.  Numeric columns are modelled with `ℚ` (`ℤ` for the
integer-cast `Hour` column); pandas `NaN` is modelled with `Option`
(`none` = NaN).
-/

set_option maxHeartbeats 1000000

/-- A loaded post record, after `load_data` has coerced the column types
(lines 34-40 of the script): the four categorical columns are strings,
`Hour` is an integer, `Likes` and `Retweets` are numeric. -/
structure Post where
  Sentiment : String
  Platform : String
  Country : String
  Hashtags : String
  Hour : ℤ
  Likes : ℚ
  Retweets : ℚ
deriving DecidableEq, Repr

/-- One step of the filter pipeline: the body of
`if selected_xxx: filtered_df = filtered_df[filtered_df[col].isin(selected_xxx)]`
(lines 70-77).  A falsy (empty) selection leaves the frame untouched;
a non-empty selection keeps the rows whose field is a member of it. -/
def dimStep (sel : List String) (field : Post → String) (l : List Post) : List Post :=
  if sel.isEmpty then l else l.filter (fun r => sel.contains (field r))

/-- `filtered_df` (lines 67-77): start from a copy of `df`, then apply the
platform, sentiment and country steps in that order. -/
def filtered_df (df : List Post) (selected_platforms selected_sentiments selected_countries : List String) : List Post :=
  dimStep selected_countries Post.Country
    (dimStep selected_sentiments Post.Sentiment
      (dimStep selected_platforms Post.Platform df))

/-- A `dimStep` is always a plain `filter` with the emptiness test folded
into the predicate (an empty selection accepts everything). -/
theorem dimStep_eq_filter (sel : List String) (field : Post → String) (l : List Post) :
    dimStep sel field l = l.filter (fun r => sel.isEmpty || sel.contains (field r)) := by
  unfold dimStep
  cases h : sel.isEmpty
  · simp [h]
  · simp [h]

theorem mem_dimStep (sel : List String) (field : Post → String) (l : List Post) (r : Post) :
    r ∈ dimStep sel field l ↔ r ∈ l ∧ (¬ sel.isEmpty → field r ∈ sel) := by
  rw [dimStep_eq_filter, List.mem_filter]
  cases h : sel.isEmpty
  · simp [h, List.contains]
  · simp [h]

theorem dimStep_sublist (sel : List String) (field : Post → String) (l : List Post) :
    (dimStep sel field l).Sublist l := by
  rw [dimStep_eq_filter]
  exact List.filter_sublist l

/-- C1: For every loaded dataset and every dimension (Platform, Sentiment,
Country), filtering with an empty selection on that dimension returns a
filtered view with the same records (hence the same count) as the pipeline
with that dimension's filter step removed entirely: the empty selection is
elided, not applied as an empty-set restriction. -/
theorem empty_selection_is_elided (df : List Post) (ps ss cs : List String) :
    filtered_df df [] ss cs = dimStep cs Post.Country (dimStep ss Post.Sentiment df) ∧
    filtered_df df ps [] cs = dimStep cs Post.Country (dimStep ps Post.Platform df) ∧
    filtered_df df ps ss [] = dimStep ss Post.Sentiment (dimStep ps Post.Platform df) := by
  refine ⟨rfl, rfl, rfl⟩

/-- A small concrete dataset used to exercise the theorems on explicit
inputs. -/
def demoPosts : List Post :=
  [ { Sentiment := "Positive", Platform := "Twitter", Country := "USA",
      Hashtags := "#a #b", Hour := 5, Likes := 10, Retweets := 2 },
    { Sentiment := "Negative", Platform := "Instagram", Country := "UK",
      Hashtags := "#b", Hour := 7, Likes := 3, Retweets := 1 },
    { Sentiment := "Positive", Platform := "Twitter", Country := "UK",
      Hashtags := "#a", Hour := 5, Likes := 4, Retweets := 0 } ]

/-- C2: for every dataset and selections, the filtered view is a
subsequence of the original record sequence (order preserved, no records
invented), and every record it contains has its field value in each
non-empty selection. -/
theorem filter_correctness (df : List Post) (ps ss cs : List String) :
    (filtered_df df ps ss cs).Sublist df ∧
    ∀ r ∈ filtered_df df ps ss cs,
      (ps ≠ [] → r.Platform ∈ ps) ∧ (ss ≠ [] → r.Sentiment ∈ ss) ∧ (cs ≠ [] → r.Country ∈ cs) := by
  constructor
  · exact ((dimStep_sublist _ _ _).trans (dimStep_sublist _ _ _)).trans (dimStep_sublist _ _ _)
  · intro r hr
    unfold filtered_df at hr
    rw [mem_dimStep] at hr
    obtain ⟨hr2, hc⟩ := hr
    rw [mem_dimStep] at hr2
    obtain ⟨hr3, hs⟩ := hr2
    rw [mem_dimStep] at hr3
    obtain ⟨_, hp⟩ := hr3
    refine ⟨fun h => hp ?_, fun h => hs ?_, fun h => hc ?_⟩ <;>
      simp [List.isEmpty_iff, h]

theorem filter_correctness_witness :
    (filtered_df demoPosts ["Twitter"] ["Positive"] []).Sublist demoPosts ∧
    ({ Sentiment := "Positive", Platform := "Twitter", Country := "USA",
       Hashtags := "#a #b", Hour := 5, Likes := 10, Retweets := 2 : Post }).Platform ∈ ["Twitter"] := by
  refine ⟨(filter_correctness demoPosts ["Twitter"] ["Positive"] []).1, ?_⟩
  exact ((filter_correctness demoPosts ["Twitter"] ["Positive"] []).2 _ (by decide)).1 (by decide)

/-- C3: the record set of the combined filter pipeline is exactly the
intersection of the record sets of the three single-dimension pipelines
(logical AND), and the pipeline applied in the reverse dimension order
produces the very same filtered list (order independence). -/
theorem and_composition (df : List Post) (ps ss cs : List String) :
    (∀ r : Post, r ∈ filtered_df df ps ss cs ↔
       r ∈ filtered_df df ps [] [] ∧ r ∈ filtered_df df [] ss [] ∧ r ∈ filtered_df df [] [] cs) ∧
    filtered_df df ps ss cs =
      dimStep ps Post.Platform (dimStep ss Post.Sentiment (dimStep cs Post.Country df)) := by
  constructor
  · intro r
    simp only [filtered_df, mem_dimStep]
    simp only [List.isEmpty_nil, not_true_eq_false, false_implies, and_true]
    tauto
  · simp only [filtered_df, dimStep_eq_filter, List.filter_filter]
    apply List.filter_congr
    intro r _
    simp only [Bool.and_comm, Bool.and_assoc, Bool.and_left_comm]

/-! ### The loader (`load_data`, lines 29-45)

A raw CSV cell of a numeric column is either already a number, a piece of
text, or missing (pandas `NaN`).  `pd.to_numeric(..., errors=coerce)`
maps it to `Option ℚ` (`none` = NaN), `.fillna(0)` is `Option.getD 0`,
and `.astype(int)` truncates toward zero.  A raw cell of a string column
is `Option String` (`none` = missing); `.astype(str)` renders a missing
value as the literal string made of the letters n, a, n. -/

inductive RawCell where
  | num (q : ℚ)
  | str (s : String)
  | na
deriving DecidableEq, Repr

/-- One raw CSV row with the columns the script uses (after the
`Unnamed:` index-artifact columns have been dropped, line 32). -/
structure RawRow where
  Sentiment : Option String
  Platform : Option String
  Country : Option String
  Hashtags : Option String
  Hour : RawCell
  Likes : RawCell
  Retweets : RawCell
deriving DecidableEq, Repr

/-- Value of a non-empty digit string. -/
def digitsVal (cs : List Char) : ℕ :=
  cs.foldl (fun n c => 10 * n + (c.toNat - 48)) 0

/-- Numeral parser modelling `pd.to_numeric` on a text cell: an optional
sign followed by a plain decimal numeral (digits, optionally a decimal
point).  Anything else fails to parse (scientific notation and other
exotic float syntax accepted by pandas is out of scope: the development
only ever applies the parser to plain numerals and to non-numeric text). -/
def to_numeric_str (s : String) : Option ℚ :=
  let cs := s.data
  let signed : ℚ × List Char :=
    match cs with
    | '-' :: rest => (-1, rest)
    | '+' :: rest => (1, rest)
    | _ => (1, cs)
  match (signed.2.splitOnP (fun c => c == '.')) with
  | [ip] =>
      if ip.all Char.isDigit ∧ ip ≠ [] then
        some (signed.1 * digitsVal ip)
      else none
  | [ip, fp] =>
      if ip.all Char.isDigit ∧ fp.all Char.isDigit ∧ (ip ≠ [] ∨ fp ≠ []) then
        some (signed.1 * ((digitsVal ip : ℚ) + (digitsVal fp : ℚ) / (10 : ℚ) ^ fp.length))
      else none
  | _ => none

/-- `pd.to_numeric(cell, errors=coerce)`: numbers pass through, text is
parsed, missing stays missing; `none` is NaN. -/
def to_numeric : RawCell → Option ℚ
  | RawCell.num q => some q
  | RawCell.str s => to_numeric_str s
  | RawCell.na => none

/-- `.astype(str)` on one cell: a missing value (float NaN) is rendered
by Python as the three-letter string n-a-n. -/
def pyStr : Option String → String
  | some s => s
  | none => "nan"

/-- `.astype(int)` on a float: truncation toward zero. -/
def truncToInt (q : ℚ) : ℤ :=
  if 0 ≤ q then ⌊q⌋ else ⌈q⌉

/-- Lines 34-40 of `load_data`, applied to one row. -/
def loadRow (row : RawRow) : Post :=
  { Sentiment := pyStr row.Sentiment
    Platform := pyStr row.Platform
    Country := pyStr row.Country
    Hashtags := pyStr row.Hashtags
    Hour := truncToInt ((to_numeric row.Hour).getD 0)
    Likes := (to_numeric row.Likes).getD 0
    Retweets := (to_numeric row.Retweets).getD 0 }

/-- `load_data` (lines 29-45): `none` as input models `pd.read_csv`
raising (missing/unreadable file), in which case the `except` branch
returns Python `None`; otherwise every row is coerced.  A CSV with
headers only is `some []` and loads to `some []`. -/
def load_data : Option (List RawRow) → Option (List Post)
  | none => none
  | some rows => some (rows.map loadRow)

/-- What the top of the script renders: the guard
`if df is not None and not df.empty:` (line 51) either shows the
dashboard or falls to the `st.error` call of lines 238-239. -/
inductive AppView where
  | dashboard (posts : List Post)
  | loadError (msg : String)
deriving DecidableEq

def renderApp (res : Option (List Post)) : AppView :=
  match res with
  | some df =>
      if df.isEmpty then AppView.loadError "Failed to load the dataset or dataset is empty."
      else AppView.dashboard df
  | none => AppView.loadError "Failed to load the dataset or dataset is empty."

/-! ### Scalar metrics (lines 85-96) and the hour series (line 172) -/

/-- `Series.mean()`: the mean of an empty series is NaN (`none`). -/
def seriesMean (xs : List ℚ) : Option ℚ :=
  if xs.isEmpty then none else some (xs.sum / (xs.length : ℚ))

/-- Round to the nearest integer, halves to the even neighbour (the
rounding used by Python's fixed-point string formatting). -/
def roundHalfEven (q : ℚ) : ℤ :=
  if q - ⌊q⌋ < 1/2 then ⌊q⌋
  else if 1/2 < q - ⌊q⌋ then ⌊q⌋ + 1
  else if ⌊q⌋ % 2 = 0 then ⌊q⌋ else ⌊q⌋ + 1

def natPad2 (m : ℕ) : String :=
  if m < 10 then "0" ++ toString m else toString m

/-- The fixed-point rendering of a number with two decimals, as produced
by the format spec `.2f`. -/
def fmt2 (q : ℚ) : String :=
  let n := roundHalfEven (100 * q)
  (if n < 0 then "-" else "") ++ toString (n.natAbs / 100) ++ "." ++ natPad2 (n.natAbs % 100)

/-- An f-string with format spec `.2f` applied to a possibly-NaN value:
Python renders float NaN as the three-letter string n-a-n. -/
def pyFormat2 : Option ℚ → String
  | none => "nan"
  | some q => fmt2 q

/-- Line 90: the string placed in the Avg Likes metric. -/
def avgLikesDisplay (l : List Post) : String :=
  pyFormat2 (seriesMean (l.map Post.Likes))

/-- Line 95: the string placed in the Avg Retweets metric. -/
def avgRetweetsDisplay (l : List Post) : String :=
  pyFormat2 (seriesMean (l.map Post.Retweets))

/-- Line 172: the entry of `filtered_df['Hour'].value_counts()` at a
given hour. -/
def hour_count (l : List Post) (h : ℤ) : ℕ :=
  (l.map Post.Hour).count h

/-! ### Claims C4, C5, C6, C8 -/

/-- C4, counterexample: an empty CSV (headers only, i.e. `some []`) does
load successfully, but the dashboard is NOT rendered: the guard of line
51 sends the empty dataset to the `st.error` branch of lines 238-239,
not to the dashboard. -/
theorem empty_csv_counterexample :
    load_data (some []) = some [] ∧
    renderApp (load_data (some [])) =
      AppView.loadError "Failed to load the dataset or dataset is empty." ∧
    renderApp (load_data (some [])) ≠ AppView.dashboard [] := by
  refine ⟨rfl, rfl, by decide⟩

/-- C4, amended: an empty CSV loads successfully (the loader returns an
empty dataset, not a failure, so no crash occurs), but the empty dataset
is then treated exactly like a load failure: the app renders the same
error view in both cases and never reaches the metrics. -/
theorem empty_csv_same_as_load_failure :
    load_data (some []) = some [] ∧
    renderApp (load_data (some [])) = renderApp none ∧
    renderApp none = AppView.loadError "Failed to load the dataset or dataset is empty." :=
  ⟨rfl, rfl, rfl⟩

/-- C5, counterexample: a concrete dataset and selections whose filtered
view is empty; both mean metrics then display the NaN rendering (the
three-letter string n-a-n), not a guarded no-data state. -/
theorem empty_mean_nan_counterexample :
    filtered_df demoPosts ["Instagram"] [] ["USA"] = [] ∧
    avgLikesDisplay (filtered_df demoPosts ["Instagram"] [] ["USA"]) = "nan" ∧
    avgRetweetsDisplay (filtered_df demoPosts ["Instagram"] [] ["USA"]) = "nan" := by
  refine ⟨by decide, by decide, by decide⟩

/-- C5, amended: when the filtered set is empty the metrics do not raise
(the display functions are total), but they show the NaN rendering
rather than a guarded no-data state. -/
theorem empty_mean_displays_nan (df : List Post) (ps ss cs : List String)
    (h : filtered_df df ps ss cs = []) :
    avgLikesDisplay (filtered_df df ps ss cs) = "nan" ∧
    avgRetweetsDisplay (filtered_df df ps ss cs) = "nan" := by
  rw [h]
  exact ⟨rfl, rfl⟩

theorem empty_mean_displays_nan_witness :
    avgLikesDisplay (filtered_df demoPosts ["Instagram"] [] ["USA"]) = "nan" ∧
    avgRetweetsDisplay (filtered_df demoPosts ["Instagram"] [] ["USA"]) = "nan" :=
  empty_mean_displays_nan demoPosts ["Instagram"] [] ["USA"] (by decide)

/-- The four raw rows of the spec scenario: `Hour` values 5, 5, 23 and
the unparsable text cell b-a-d. -/
def rawRow5a : RawRow :=
  { Sentiment := some "Positive", Platform := some "Twitter", Country := some "USA",
    Hashtags := some "#a", Hour := RawCell.num 5, Likes := RawCell.num 1, Retweets := RawCell.num 2 }

def rawRow5b : RawRow :=
  { Sentiment := some "Negative", Platform := some "Instagram", Country := some "UK",
    Hashtags := some "#b", Hour := RawCell.num 5, Likes := RawCell.num 3, Retweets := RawCell.num 0 }

def rawRow23 : RawRow :=
  { Sentiment := some "Neutral", Platform := some "Twitter", Country := some "USA",
    Hashtags := some "#a", Hour := RawCell.num 23, Likes := RawCell.num 4, Retweets := RawCell.num 1 }

def rawRowBad : RawRow :=
  { Sentiment := some "Positive", Platform := some "Web", Country := some "India",
    Hashtags := some "#c", Hour := RawCell.str "bad", Likes := RawCell.num 2, Retweets := RawCell.num 2 }

def rawHourRows : List RawRow := [rawRow5a, rawRow5b, rawRow23, rawRowBad]

/-- C6: a Hour, Likes or Retweets cell that fails numeric parsing loads
as 0 (never an error), and on the scenario rows the Hour column loads as
5, 5, 23, 0, so the per-hour count at hour 5 is 2. -/
theorem malformed_numeric_coerced_to_zero :
    (∀ row : RawRow,
       (to_numeric row.Hour = none → (loadRow row).Hour = 0) ∧
       (to_numeric row.Likes = none → (loadRow row).Likes = 0) ∧
       (to_numeric row.Retweets = none → (loadRow row).Retweets = 0)) ∧
    (load_data (some rawHourRows)).map (fun posts => posts.map Post.Hour) = some [5, 5, 23, 0] ∧
    (load_data (some rawHourRows)).map (fun posts => hour_count posts 5) = some 2 := by
  refine ⟨?_, by decide, by decide⟩
  intro row
  refine ⟨fun h => ?_, fun h => ?_, fun h => ?_⟩ <;>
    simp [loadRow, h, truncToInt]

/-- A row whose three numeric cells all fail to parse. -/
def allBadRow : RawRow :=
  { Sentiment := some "Neutral", Platform := some "Web", Country := some "India",
    Hashtags := some "#z", Hour := RawCell.str "bad", Likes := RawCell.str "oops", Retweets := RawCell.na }

theorem malformed_numeric_coerced_to_zero_witness :
    (loadRow allBadRow).Hour = 0 ∧ (loadRow allBadRow).Likes = 0 ∧ (loadRow allBadRow).Retweets = 0 := by
  obtain ⟨h1, h2, h3⟩ := malformed_numeric_coerced_to_zero.1 allBadRow
  exact ⟨h1 (by decide), h2 (by decide), h3 (by decide)⟩

/-- A raw row whose numeric cells parse fine but are out of the ranges
the data model announces. -/
def outOfRangeRow : RawRow :=
  { Sentiment := some "Neutral", Platform := some "Web", Country := some "India",
    Hashtags := some "#z", Hour := RawCell.num 99, Likes := RawCell.num (-5), Retweets := RawCell.num 1 }

/-- C8, counterexample: the loader does not clamp: an Hour cell of 99
loads as 99 (outside 0-23) and a Likes cell of -5 loads as -5 (negative),
so the loader does not establish the claimed range invariants. -/
theorem loader_range_counterexample :
    (loadRow outOfRangeRow).Hour = 99 ∧ (loadRow outOfRangeRow).Likes = -5 ∧
    ¬((loadRow outOfRangeRow).Hour ≤ 23 ∧ 0 ≤ (loadRow outOfRangeRow).Likes) := by
  refine ⟨by decide, by decide, by decide⟩

/-- C8, amended: the loader substitutes 0 on parse failure but merely
passes parsed values through, so it does not establish the range
invariants by itself; they do hold (a sufficient condition) whenever
every cell that does parse is itself in range: Hour in 0-23, Likes and
Retweets non-negative. -/
theorem loader_range_invariants_conditional (rows : List RawRow)
    (hHour : ∀ row ∈ rows, ∀ q : ℚ, to_numeric row.Hour = some q → 0 ≤ q ∧ q ≤ 23)
    (hLikes : ∀ row ∈ rows, ∀ q : ℚ, to_numeric row.Likes = some q → 0 ≤ q)
    (hRetweets : ∀ row ∈ rows, ∀ q : ℚ, to_numeric row.Retweets = some q → 0 ≤ q) :
    ∀ p ∈ rows.map loadRow, (0 ≤ p.Hour ∧ p.Hour ≤ 23) ∧ 0 ≤ p.Likes ∧ 0 ≤ p.Retweets := by
  intro p hp
  rw [List.mem_map] at hp
  obtain ⟨row, hrow, rfl⟩ := hp
  refine ⟨?_, ?_, ?_⟩
  · cases hcell : to_numeric row.Hour with
    | none => simp [loadRow, hcell, truncToInt]
    | some q =>
        obtain ⟨h0, h23⟩ := hHour row hrow q hcell
        simp only [loadRow, hcell, Option.getD_some]
        rw [truncToInt, if_pos h0]
        refine ⟨Int.floor_nonneg.mpr h0, ?_⟩
        have hq : ((⌊q⌋ : ℚ)) ≤ 23 := (Int.floor_le q).trans h23
        exact_mod_cast hq
  · cases hcell : to_numeric row.Likes with
    | none => simp [loadRow, hcell]
    | some q =>
        have := hLikes row hrow q hcell
        simpa [loadRow, hcell] using this
  · cases hcell : to_numeric row.Retweets with
    | none => simp [loadRow, hcell]
    | some q =>
        have := hRetweets row hrow q hcell
        simpa [loadRow, hcell] using this

/-- Executable check that a cell's parsed value (when there is one) lies
in a closed interval. -/
def cellOK (lo hi : ℚ) (c : RawCell) : Bool :=
  match to_numeric c with
  | none => true
  | some q => decide (lo ≤ q ∧ q ≤ hi)

theorem cellOK_sound {lo hi : ℚ} {c : RawCell} (h : cellOK lo hi c = true) :
    ∀ q : ℚ, to_numeric c = some q → lo ≤ q ∧ q ≤ hi := by
  intro q hq
  unfold cellOK at h
  rw [hq] at h
  simpa using h

/-- Executable check that a cell's parsed value (when there is one) is at
least a bound. -/
def cellGE (lo : ℚ) (c : RawCell) : Bool :=
  match to_numeric c with
  | none => true
  | some q => decide (lo ≤ q)

theorem cellGE_sound {lo : ℚ} {c : RawCell} (h : cellGE lo c = true) :
    ∀ q : ℚ, to_numeric c = some q → lo ≤ q := by
  intro q hq
  unfold cellGE at h
  rw [hq] at h
  simpa using h

theorem loader_range_invariants_conditional_witness :
    (0 ≤ (loadRow rawRow5a).Hour ∧ (loadRow rawRow5a).Hour ≤ 23) ∧
    0 ≤ (loadRow rawRow5a).Likes ∧ 0 ≤ (loadRow rawRow5a).Retweets := by
  refine loader_range_invariants_conditional rawHourRows ?_ ?_ ?_ (loadRow rawRow5a) (by decide)
  · intro row hrow
    simp only [rawHourRows, List.mem_cons, List.not_mem_nil, or_false] at hrow
    rcases hrow with rfl | rfl | rfl | rfl <;> exact cellOK_sound (by decide)
  · intro row hrow
    simp only [rawHourRows, List.mem_cons, List.not_mem_nil, or_false] at hrow
    rcases hrow with rfl | rfl | rfl | rfl <;> exact cellGE_sound (by decide)
  · intro row hrow
    simp only [rawHourRows, List.mem_cons, List.not_mem_nil, or_false] at hrow
    rcases hrow with rfl | rfl | rfl | rfl <;> exact cellGE_sound (by decide)

/-! ### The hashtag ranking (lines 204-206)

`hashtag_list = ' '.join(filtered_df['Hashtags'].dropna()).split()` and
`hashtag_counts = Counter(hashtag_list).most_common(10)`. -/

/-- Python `str.split()` with no separator: split on runs of whitespace,
dropping empty chunks. -/
def pySplit (s : String) : List String :=
  ((s.data.splitOnP (fun c => c.isWhitespace)).map (fun cs => String.mk cs)).filter
    (fun t => !(t == ""))

/-- Line 205.  The `.dropna()` of the source is a no-op here: after
`astype(str)` at load time the Hashtags column contains only strings (a
missing raw value has become the literal n-a-n string), so the series
has no NaN entry to drop; the embedding therefore joins every record's
Hashtags text. -/
def hashtag_list (l : List Post) : List String :=
  pySplit (String.intercalate " " (l.map Post.Hashtags))

/-- The keys of `Counter(toks)` in dictionary insertion order: first
occurrence order, each distinct token once (`seen` accumulates the keys
already emitted, exactly as the dictionary does while counting). -/
def counterKeysAux (seen : List String) : List String → List String
  | [] => []
  | t :: ts =>
      if seen.contains t then counterKeysAux seen ts
      else t :: counterKeysAux (t :: seen) ts

def counterKeys (ts : List String) : List String := counterKeysAux [] ts

/-- The order produced by `Counter.most_common`: decreasing count, and on
equal counts the first-seen token first (`most_common` sorts the
insertion-ordered items with Python's stable sort, so ties keep
insertion = first-occurrence order; on the distinct keys this is exactly
the lexicographic order below). -/
def hrank (toks : List String) (a b : String) : Prop :=
  toks.count b < toks.count a ∨
    (toks.count a = toks.count b ∧ toks.indexOf a ≤ toks.indexOf b)

instance (toks : List String) : DecidableRel (hrank toks) := fun a b =>
  inferInstanceAs (Decidable
    (toks.count b < toks.count a ∨
      (toks.count a = toks.count b ∧ toks.indexOf a ≤ toks.indexOf b)))

instance (toks : List String) : IsTotal String (hrank toks) := by
  refine ⟨fun a b => ?_⟩
  unfold hrank
  omega

instance (toks : List String) : IsTrans String (hrank toks) := by
  refine ⟨fun a b c hab hbc => ?_⟩
  unfold hrank at *
  omega

/-- `Counter(toks).most_common(n)`: order the distinct tokens by
`hrank`, take `n`, and pair each token with its frequency. -/
def most_common (n : ℕ) (toks : List String) : List (String × ℕ) :=
  (((counterKeys toks).insertionSort (hrank toks)).take n).map (fun t => (t, toks.count t))

/-- Line 206: `Counter(hashtag_list).most_common(10)`. -/
def hashtag_counts (l : List Post) : List (String × ℕ) :=
  most_common 10 (hashtag_list l)

theorem mem_counterKeysAux (ts : List String) :
    ∀ (seen : List String) (a : String), a ∈ counterKeysAux seen ts ↔ a ∈ ts ∧ a ∉ seen := by
  induction ts with
  | nil =>
      intro seen a
      simp [counterKeysAux]
  | cons t ts ih =>
      intro seen a
      rw [counterKeysAux]
      by_cases hseen : seen.contains t
      · rw [if_pos hseen, ih]
        have ht : t ∈ seen := by simpa [List.contains] using hseen
        simp only [List.mem_cons]
        constructor
        · rintro ⟨h1, h2⟩
          exact ⟨Or.inr h1, h2⟩
        · rintro ⟨h1 | h1, h2⟩
          · subst h1
            exact absurd ht h2
          · exact ⟨h1, h2⟩
      · rw [if_neg hseen]
        have ht : t ∉ seen := by simpa [List.contains] using hseen
        simp only [List.mem_cons, ih]
        constructor
        · rintro (rfl | ⟨h1, h2⟩)
          · exact ⟨Or.inl rfl, ht⟩
          · exact ⟨Or.inr h1, fun hc => h2 (Or.inr hc)⟩
        · rintro ⟨rfl | h1, h2⟩
          · exact Or.inl rfl
          · by_cases hat : a = t
            · exact Or.inl hat
            · exact Or.inr ⟨h1, by simp [hat, h2]⟩

theorem mem_counterKeys (ts : List String) (t : String) : t ∈ counterKeys ts ↔ t ∈ ts := by
  rw [counterKeys, mem_counterKeysAux]
  simp

theorem counterKeysAux_nodup (ts : List String) :
    ∀ seen : List String, (counterKeysAux seen ts).Nodup := by
  induction ts with
  | nil =>
      intro seen
      simp [counterKeysAux]
  | cons t ts ih =>
      intro seen
      rw [counterKeysAux]
      by_cases hseen : seen.contains t
      · rw [if_pos hseen]
        exact ih seen
      · rw [if_neg hseen]
        refine List.nodup_cons.mpr ⟨?_, ih _⟩
        rw [mem_counterKeysAux]
        simp

theorem counterKeys_nodup (ts : List String) : (counterKeys ts).Nodup :=
  counterKeysAux_nodup ts []

/-- Full specification of `most_common`: at most `n` results; every
result pairs a token of the input with its frequency; consecutive
results are ordered by strictly decreasing frequency or, on equal
frequency, by strictly increasing first-occurrence position; and every
token left out has frequency at most that of every token kept. -/
theorem most_common_spec (n : ℕ) (toks : List String) :
    (most_common n toks).length ≤ n ∧
    (∀ p ∈ most_common n toks, p.1 ∈ toks ∧ p.2 = toks.count p.1) ∧
    (∀ i j : Fin (most_common n toks).length, (i : ℕ) < (j : ℕ) →
       ((most_common n toks).get j).2 < ((most_common n toks).get i).2 ∨
       (((most_common n toks).get i).2 = ((most_common n toks).get j).2 ∧
        toks.indexOf ((most_common n toks).get i).1 < toks.indexOf ((most_common n toks).get j).1)) ∧
    (∀ t ∈ toks, t ∉ (most_common n toks).map Prod.fst →
       ∀ p ∈ most_common n toks, toks.count t ≤ p.2) := by
  classical
  have hsorted : List.Sorted (hrank toks) ((counterKeys toks).insertionSort (hrank toks)) :=
    List.sorted_insertionSort _ _
  have hperm : ((counterKeys toks).insertionSort (hrank toks)).Perm (counterKeys toks) :=
    List.perm_insertionSort _ _
  have hnodup : ((counterKeys toks).insertionSort (hrank toks)).Nodup :=
    hperm.nodup_iff.mpr (counterKeys_nodup toks)
  have hmem_s : ∀ a, a ∈ (counterKeys toks).insertionSort (hrank toks) ↔ a ∈ toks := by
    intro a
    rw [hperm.mem_iff, mem_counterKeys]
  have hmc : most_common n toks =
      (((counterKeys toks).insertionSort (hrank toks)).take n).map
        (fun t => (t, toks.count t)) := rfl
  have hsorted_take : List.Sorted (hrank toks)
      (((counterKeys toks).insertionSort (hrank toks)).take n) :=
    List.Pairwise.sublist (List.take_sublist _ _) hsorted
  have hnodup_take : (((counterKeys toks).insertionSort (hrank toks)).take n).Nodup :=
    List.Pairwise.sublist (List.take_sublist _ _) hnodup
  have hmem_take : ∀ a, a ∈ ((counterKeys toks).insertionSort (hrank toks)).take n → a ∈ toks :=
    fun a ha => (hmem_s a).mp (List.mem_of_mem_take ha)
  refine ⟨?_, ?_, ?_, ?_⟩
  · rw [hmc, List.length_map, List.length_take]
    exact min_le_left _ _
  · intro p hp
    rw [hmc, List.mem_map] at hp
    obtain ⟨t, ht, rfl⟩ := hp
    exact ⟨hmem_take t ht, rfl⟩
  · have hpw : List.Pairwise
        (fun p q : String × ℕ => q.2 < p.2 ∨ (p.2 = q.2 ∧ toks.indexOf p.1 < toks.indexOf q.1))
        (most_common n toks) := by
      rw [hmc, List.pairwise_map]
      refine List.Pairwise.imp_of_mem ?_ (hsorted_take.and hnodup_take)
      intro a b ha hb hab
      obtain ⟨hr, hne⟩ := hab
      rcases hr with h | ⟨h1, h2⟩
      · exact Or.inl h
      · refine Or.inr ⟨h1, lt_of_le_of_ne h2 ?_⟩
        exact fun hidx => hne ((List.indexOf_inj (hmem_take a ha) (hmem_take b hb)).mp hidx)
    intro i j hij
    exact List.pairwise_iff_get.mp hpw i j (Fin.lt_def.mpr hij)
  · intro t ht hnot p hp
    have hfst : (most_common n toks).map Prod.fst =
        ((counterKeys toks).insertionSort (hrank toks)).take n := by
      rw [hmc, List.map_map]
      have hcomp : (Prod.fst ∘ fun t : String => (t, toks.count t)) = id := rfl
      rw [hcomp, List.map_id]
    rw [hfst] at hnot
    have hts : t ∈ ((counterKeys toks).insertionSort (hrank toks)) := (hmem_s t).mpr ht
    have hts2 : t ∈ ((counterKeys toks).insertionSort (hrank toks)).take n ++
        ((counterKeys toks).insertionSort (hrank toks)).drop n := by
      rw [List.take_append_drop]
      exact hts
    have hdrop : t ∈ ((counterKeys toks).insertionSort (hrank toks)).drop n := by
      rcases List.mem_append.mp hts2 with h | h
      · exact absurd h hnot
      · exact h
    rw [hmc, List.mem_map] at hp
    obtain ⟨u, hu, rfl⟩ := hp
    have hr : hrank toks u t := hsorted.rel_of_mem_take_of_mem_drop hu hdrop
    unfold hrank at hr
    omega

/-- C7: the top-10 hashtag ranking is a deterministic function of the
filtered records (it is a function of the token list): it returns at most
10 pairs, each pairing a token of the whitespace-split flattened Hashtags
text with its frequency there; earlier entries have strictly greater
frequency or, at equal frequency, a strictly earlier first occurrence in
the flattened token sequence; and every token left out of the ranking has
frequency at most that of every token kept. -/
theorem top_hashtags_ranking (l : List Post) :
    (hashtag_counts l).length ≤ 10 ∧
    (∀ p ∈ hashtag_counts l, p.1 ∈ hashtag_list l ∧ p.2 = (hashtag_list l).count p.1) ∧
    (∀ i j : Fin (hashtag_counts l).length, (i : ℕ) < (j : ℕ) →
       ((hashtag_counts l).get j).2 < ((hashtag_counts l).get i).2 ∨
       (((hashtag_counts l).get i).2 = ((hashtag_counts l).get j).2 ∧
        (hashtag_list l).indexOf ((hashtag_counts l).get i).1 <
          (hashtag_list l).indexOf ((hashtag_counts l).get j).1)) ∧
    (∀ t ∈ hashtag_list l, t ∉ (hashtag_counts l).map Prod.fst →
       ∀ p ∈ hashtag_counts l, (hashtag_list l).count t ≤ p.2) :=
  most_common_spec 10 (hashtag_list l)

theorem top_hashtags_ranking_witness :
    hashtag_counts demoPosts = [("#a", 2), ("#b", 2)] ∧
    ("#a", 2).2 = (hashtag_list demoPosts).count "#a" ∧
    (((hashtag_counts demoPosts).get ⟨1, by decide⟩).2 <
       ((hashtag_counts demoPosts).get ⟨0, by decide⟩).2 ∨
     (((hashtag_counts demoPosts).get ⟨0, by decide⟩).2 =
        ((hashtag_counts demoPosts).get ⟨1, by decide⟩).2 ∧
      (hashtag_list demoPosts).indexOf ((hashtag_counts demoPosts).get ⟨0, by decide⟩).1 <
        (hashtag_list demoPosts).indexOf ((hashtag_counts demoPosts).get ⟨1, by decide⟩).1)) := by
  refine ⟨by decide, ((top_hashtags_ranking demoPosts).2.1 ("#a", 2) (by decide)).2, ?_⟩
  exact (top_hashtags_ranking demoPosts).2.2.1 ⟨0, by decide⟩ ⟨1, by decide⟩ (by decide)

/-! ### Claim C10: missing Hashtags become the n-a-n token -/

/-- Rows whose raw `Hashtags` cell is missing in the CSV, plus one with a
real hashtag. -/
def rawNanRow1 : RawRow :=
  { Sentiment := some "Positive", Platform := some "Twitter", Country := some "USA",
    Hashtags := none, Hour := RawCell.num 1, Likes := RawCell.num 1, Retweets := RawCell.num 1 }

def rawNanRow2 : RawRow :=
  { Sentiment := some "Negative", Platform := some "Instagram", Country := some "UK",
    Hashtags := none, Hour := RawCell.num 2, Likes := RawCell.num 2, Retweets := RawCell.num 2 }

def rawNanRow3 : RawRow :=
  { Sentiment := some "Neutral", Platform := some "Twitter", Country := some "UK",
    Hashtags := some "#x", Hour := RawCell.num 3, Likes := RawCell.num 3, Retweets := RawCell.num 3 }

def rawNanRows : List RawRow := [rawNanRow1, rawNanRow2, rawNanRow3]

/-- C10: a missing Hashtags cell is loaded as the literal n-a-n string
(`astype(str)` of NaN); since the loaded column is all strings, `dropna`
removes nothing and every record contributes its tokens, so the n-a-n
token is counted like any other and can appear in the top-10 ranking:
on the concrete rows it appears with count 2. -/
theorem missing_hashtags_counted_as_nan :
    (∀ row : RawRow, row.Hashtags = none → (loadRow row).Hashtags = "nan") ∧
    hashtag_list (rawNanRows.map loadRow) = ["nan", "nan", "#x"] ∧
    ("nan", 2) ∈ hashtag_counts (rawNanRows.map loadRow) := by
  refine ⟨?_, by decide, by decide⟩
  intro row h
  simp [loadRow, h, pyStr]

theorem missing_hashtags_counted_as_nan_witness :
    (loadRow rawNanRow1).Hashtags = "nan" :=
  missing_hashtags_counted_as_nan.1 rawNanRow1 (by decide)

/-! ### The correlation heatmap (lines 223-225)

`corr_matrix = filtered_df[numeric_cols].corr()` with
`numeric_cols = ['Likes', 'Retweets', 'Hour']`.  The arithmetic is
idealised over exact rationals/reals rather than IEEE floats. -/

/-- The three numeric columns, in the order of line 223. -/
def numericCol (i : Fin 3) (r : Post) : ℚ :=
  if i = 0 then r.Likes else if i = 1 then r.Retweets else (r.Hour : ℚ)

/-- Mean of a numeric column over the filtered records. -/
def colMean (l : List Post) (i : Fin 3) : ℚ :=
  (l.map (numericCol i)).sum / (l.length : ℚ)

/-- Sum over the records of the products of deviations from the column
means: the covariance sums of `DataFrame.corr()` before the 1/(n-1)
normalisations, which cancel in the correlation quotient. -/
def sdev2 (l : List Post) (i j : Fin 3) : ℚ :=
  (l.map (fun r => (numericCol i r - colMean l i) * (numericCol j r - colMean l j))).sum

/-- Entry (i, j) of `filtered_df[numeric_cols].corr()`: the Pearson
coefficient cov/(sqrt(vx)*sqrt(vy)).  pandas's `nancorr` kernel writes
NaN (`none` here) whenever the divisor sqrt(vx*vy) is zero, i.e. when
either column has zero variance. -/
noncomputable def corr_matrix (l : List Post) (i j : Fin 3) : Option ℝ :=
  if sdev2 l i i = 0 ∨ sdev2 l j j = 0 then none
  else some ((sdev2 l i j : ℝ) / (Real.sqrt (sdev2 l i i) * Real.sqrt (sdev2 l j j)))

theorem sdev2_comm (l : List Post) (i j : Fin 3) : sdev2 l i j = sdev2 l j i := by
  unfold sdev2
  congr 1
  apply List.map_congr_left
  intro r _
  ring

theorem sdev2_self_nonneg (l : List Post) (i : Fin 3) : 0 ≤ sdev2 l i i := by
  unfold sdev2
  apply List.sum_nonneg
  intro x hx
  rw [List.mem_map] at hx
  obtain ⟨r, _, rfl⟩ := hx
  exact mul_self_nonneg _

/-- C9, amended: the correlation matrix is always symmetric, and a
diagonal entry equals 1 exactly when its column has nonzero variance
(otherwise it is NaN, as on any single-row or constant column). -/
theorem corr_symm_unit_diagonal (l : List Post) (i j : Fin 3) :
    corr_matrix l i j = corr_matrix l j i ∧
    (sdev2 l i i ≠ 0 → corr_matrix l i i = some 1) := by
  constructor
  · by_cases h1 : sdev2 l i i = 0 <;> by_cases h2 : sdev2 l j j = 0 <;>
      simp [corr_matrix, h1, h2, sdev2_comm l i j, mul_comm]
  · intro h
    have hposq : (0:ℚ) < sdev2 l i i := lt_of_le_of_ne (sdev2_self_nonneg l i) (Ne.symm h)
    have hpos : (0:ℝ) < ((sdev2 l i i : ℚ) : ℝ) := by exact_mod_cast hposq
    rw [corr_matrix, if_neg (by simp [h])]
    rw [Real.mul_self_sqrt hpos.le, div_self (ne_of_gt hpos)]

/-- A one-record dataset: non-empty, but every numeric column is
constant. -/
def singlePost : Post :=
  { Sentiment := "Positive", Platform := "Twitter", Country := "USA",
    Hashtags := "#a", Hour := 5, Likes := 10, Retweets := 2 }

/-- C9, counterexample: a single-row (hence non-empty) filtered set has
zero variance in every column; pandas then produces NaN, so the diagonal
entry of the correlation matrix is `none`, not 1. -/
theorem corr_diagonal_counterexample :
    ([singlePost] : List Post) ≠ [] ∧ corr_matrix [singlePost] 0 0 = none := by
  refine ⟨by decide, ?_⟩
  rw [corr_matrix, if_pos]
  left
  norm_num [sdev2, colMean, numericCol, singlePost]

theorem corr_symm_unit_diagonal_witness :
    corr_matrix demoPosts 0 1 = corr_matrix demoPosts 1 0 ∧
    corr_matrix demoPosts 0 0 = some 1 :=
  ⟨(corr_symm_unit_diagonal demoPosts 0 1).1,
   (corr_symm_unit_diagonal demoPosts 0 0).2 (by norm_num [sdev2, colMean, numericCol, demoPosts])⟩
